import Mathlib

/-!
Shallow embedding of the core of the twitch-api.rs crate (request protocol,
error classification, scope bitset) together with theorems settling the
specification claims about it.

Source files embedded:
- src/auth/scopes.rs   (Scope, ScopeSet, iterators, FromIterator)
- src/requests.rs      (FailureStatus, CommonResponseCodes, RequestError,
                        PossibleResponse, Request::make_request)
- src/resource/users.rs, src/resource/clips.rs, src/auth/mod.rs
                       (concrete request instances and their ready checks)

Machine integers are modelled as Nat (statuses are u16 values, bit indices
are usize values); the 64-bit word backing the scope bitset is modelled as a
Nat together with the explicit word width of 64 bits.
-/

namespace TwitchApi

/-- Scope enumeration from src/auth/scopes.rs lines 104-145.
The Rust enum is repr(usize) with discriminants 0..25 assigned in
declaration order starting from AnalyticsReadExtensions = 0. -/
inductive Scope where
  | AnalyticsReadExtensions
  | AnalyticsReadGames
  | BitsRead
  | ChannelEditCommerial
  | ChannelManageBroadcast
  | ChannelManageExtensions
  | ChannelManageRedemptions
  | ChannelManageVideos
  | ChannelReadEditors
  | ChannelReadHypeTrain
  | ChannelReadRedemptions
  | ChannelReadStreamKey
  | ChannelReadSubscriptions
  | ClipsEdit
  | ModerationRead
  | UserEdit
  | UserEditFollows
  | UserReadBroadcast
  | UserReadEmail
  | UserReadBlockedUsers
  | UserManageBlockedUsers
  | ChannelModerate
  | ChannelEdit
  | ChatRead
  | WhispersRead
  | WhispersEdit
  deriving DecidableEq, Fintype

/-- The repr(usize) discriminant of a Scope variant: what the Rust
expression (scope as usize) evaluates to. -/
def Scope.ord : Scope → Nat
  | .AnalyticsReadExtensions => 0
  | .AnalyticsReadGames => 1
  | .BitsRead => 2
  | .ChannelEditCommerial => 3
  | .ChannelManageBroadcast => 4
  | .ChannelManageExtensions => 5
  | .ChannelManageRedemptions => 6
  | .ChannelManageVideos => 7
  | .ChannelReadEditors => 8
  | .ChannelReadHypeTrain => 9
  | .ChannelReadRedemptions => 10
  | .ChannelReadStreamKey => 11
  | .ChannelReadSubscriptions => 12
  | .ClipsEdit => 13
  | .ModerationRead => 14
  | .UserEdit => 15
  | .UserEditFollows => 16
  | .UserReadBroadcast => 17
  | .UserReadEmail => 18
  | .UserReadBlockedUsers => 19
  | .UserManageBlockedUsers => 20
  | .ChannelModerate => 21
  | .ChannelEdit => 22
  | .ChatRead => 23
  | .WhispersRead => 24
  | .WhispersEdit => 25

/-- Scope::max from src/auth/scopes.rs lines 148-151: the count of enum
variants, used as the exclusive scan bound by the iterator. -/
def Scope.max : Nat := 26

/-- Scope::as_twitch_str from src/auth/scopes.rs lines 154-183. -/
def Scope.as_twitch_str : Scope → String
  | .AnalyticsReadExtensions => "analytics:read:extensions"
  | .AnalyticsReadGames => "analytics:read:games"
  | .BitsRead => "bits:read"
  | .ChannelEditCommerial => "channel:edit:commercial"
  | .ChannelManageBroadcast => "channel:manage:broadcast"
  | .ChannelManageExtensions => "channel:manage:extensions"
  | .ChannelManageRedemptions => "channel:manage:redemptions"
  | .ChannelManageVideos => "channel:manage:videos"
  | .ChannelReadEditors => "channel:read:editors"
  | .ChannelReadHypeTrain => "channel:read:hype_train"
  | .ChannelReadRedemptions => "channel:read:redemptions"
  | .ChannelReadStreamKey => "channel:read:stream_key"
  | .ChannelReadSubscriptions => "channel:read:subscriptions"
  | .ClipsEdit => "clips:edit"
  | .ModerationRead => "moderation:read"
  | .UserEdit => "user:edit"
  | .UserEditFollows => "user:edit:follows"
  | .UserReadBroadcast => "user:read:broadcast"
  | .UserReadEmail => "user:read:email"
  | .UserReadBlockedUsers => "user:read:blocked_users"
  | .UserManageBlockedUsers => "user:mange:blocked_users"
  | .ChannelModerate => "channel:moderate"
  | .ChannelEdit => "chat:edit"
  | .ChatRead => "chat:read"
  | .WhispersRead => "whispers:read"
  | .WhispersEdit => "whispers:edit"

/-- Scope::from_twitch_str from src/auth/scopes.rs lines 186-216. -/
def Scope.from_twitch_str (ts : String) : Option Scope :=
  if ts = "analytics:read:extensions" then some .AnalyticsReadExtensions
  else if ts = "analytics:read:games" then some .AnalyticsReadGames
  else if ts = "bits:read" then some .BitsRead
  else if ts = "channel:edit:commercial" then some .ChannelEditCommerial
  else if ts = "channel:manage:broadcast" then some .ChannelManageBroadcast
  else if ts = "channel:manage:extensions" then some .ChannelManageExtensions
  else if ts = "channel:manage:redemptions" then some .ChannelManageRedemptions
  else if ts = "channel:manage:videos" then some .ChannelManageVideos
  else if ts = "channel:read:editors" then some .ChannelReadEditors
  else if ts = "channel:read:hype_train" then some .ChannelReadHypeTrain
  else if ts = "channel:read:redemptions" then some .ChannelReadRedemptions
  else if ts = "channel:read:stream_key" then some .ChannelReadStreamKey
  else if ts = "channel:read:subscriptions" then some .ChannelReadSubscriptions
  else if ts = "clips:edit" then some .ClipsEdit
  else if ts = "moderation:read" then some .ModerationRead
  else if ts = "user:edit" then some .UserEdit
  else if ts = "user:edit:follows" then some .UserEditFollows
  else if ts = "user:read:broadcast" then some .UserReadBroadcast
  else if ts = "user:read:email" then some .UserReadEmail
  else if ts = "user:read:blocked_users" then some .UserReadBlockedUsers
  else if ts = "user:mange:blocked_users" then some .UserManageBlockedUsers
  else if ts = "channel:moderate" then some .ChannelModerate
  else if ts = "chat:edit" then some .ChannelEdit
  else if ts = "chat:read" then some .ChatRead
  else if ts = "whispers:read" then some .WhispersRead
  else if ts = "whispers:edit" then some .WhispersEdit
  else none

/-- All 26 Scope variants in discriminant order. -/
def Scope.all : List Scope :=
  [.AnalyticsReadExtensions, .AnalyticsReadGames, .BitsRead,
   .ChannelEditCommerial, .ChannelManageBroadcast, .ChannelManageExtensions,
   .ChannelManageRedemptions, .ChannelManageVideos, .ChannelReadEditors,
   .ChannelReadHypeTrain, .ChannelReadRedemptions, .ChannelReadStreamKey,
   .ChannelReadSubscriptions, .ClipsEdit, .ModerationRead, .UserEdit,
   .UserEditFollows, .UserReadBroadcast, .UserReadEmail,
   .UserReadBlockedUsers, .UserManageBlockedUsers, .ChannelModerate,
   .ChannelEdit, .ChatRead, .WhispersRead, .WhispersEdit]

/-- The Scope variant whose discriminant is i: models the transmute in
ScopeIter::next (src/auth/scopes.rs line 311), which reinterprets a usize
cursor < Scope::max() as the Scope with that discriminant.  Returns none
for i >= 26 (where the transmute would be undefined behaviour; the source
guards it with cursor < Scope::max()). -/
def Scope.ofOrd? (i : Nat) : Option Scope := Scope.all[i]?

theorem Scope.ord_lt_max (sc : Scope) : sc.ord < Scope.max := by
  cases sc <;> decide

theorem Scope.ofOrd?_ord : ∀ i < Scope.max, (Scope.ofOrd? i).map Scope.ord = some i := by
  decide

theorem Scope.ofOrd?_eq_none (i : Nat) (h : Scope.max ≤ i) : Scope.ofOrd? i = none := by
  apply List.getElem?_eq_none
  simpa [Scope.all] using h

theorem Scope.ord_injective : ∀ s t : Scope, s.ord = t.ord → s = t := by
  decide

theorem Scope.from_as_twitch_str (sc : Scope) :
    Scope.from_twitch_str (Scope.as_twitch_str sc) = some sc := by
  cases sc <;> rfl

theorem Scope.as_twitch_str_injective (s t : Scope)
    (h : s.as_twitch_str = t.as_twitch_str) : s = t := by
  have hs := Scope.from_as_twitch_str s
  rw [h, Scope.from_as_twitch_str t] at hs
  exact (Option.some.injEq _ _ ▸ hs).symm

/-- Width in bits of the bit vector backing ScopeSet: the source stores a
single usize word (BitArray of Lsb0, usize; src/auth/scopes.rs line 224) and
the crate targets 64-bit platforms, so the word holds 64 bits. -/
def wordBits : Nat := 64

/-- ScopeSet from src/auth/scopes.rs lines 221-225: a set of scopes backed
by one machine word.  The word is modelled as the Nat whose binary digits
are the bits of the word; values with bits at positions >= 64 do not
correspond to any BitArray state and are unreachable from the operations
below. -/
@[ext]
structure ScopeSet where
  scopes : Nat
  deriving DecidableEq

namespace ScopeSet

/-- ScopeSet::new (src/auth/scopes.rs lines 229-233): all bits clear. -/
def new : ScopeSet := ⟨0⟩

/-- BitArray::get with a bounds check (used by ScopeSet::contains): some
bit-value when the index is inside the word, none when out of bounds (the
case whose expect would panic). -/
def get (s : ScopeSet) (i : Nat) : Option Bool :=
  if i < wordBits then some (s.scopes.testBit i) else none

/-- ScopeSet::contains (src/auth/scopes.rs lines 236-241): reads bit
(scope as usize) via get and unwraps with expect.  The none branch is the
panic; it is modelled as false and proved unreachable in claim C9. -/
def contains (s : ScopeSet) (scope : Scope) : Bool :=
  (s.get scope.ord).getD false

/-- ScopeSet::insert (src/auth/scopes.rs lines 244-246): set bit
(scope as usize) to true. -/
def insert (s : ScopeSet) (scope : Scope) : ScopeSet :=
  ⟨s.scopes ||| 2 ^ scope.ord⟩

/-- ScopeSet::remove (src/auth/scopes.rs lines 249-251): set bit
(scope as usize) to false, i.e. clear the bit when it is set and leave the
word unchanged otherwise. -/
def remove (s : ScopeSet) (scope : Scope) : ScopeSet :=
  ⟨if s.scopes.testBit scope.ord then s.scopes ^^^ 2 ^ scope.ord else s.scopes⟩

theorem get_ord_eq_some (s : ScopeSet) (sc : Scope) :
    s.get sc.ord = some (s.scopes.testBit sc.ord) := by
  have h : sc.ord < wordBits := by
    have := Scope.ord_lt_max sc
    simp only [Scope.max] at this
    simp only [wordBits]
    omega
  simp [get, h]

theorem contains_eq_testBit (s : ScopeSet) (sc : Scope) :
    s.contains sc = s.scopes.testBit sc.ord := by
  simp [contains, get_ord_eq_some]

theorem contains_insert (s : ScopeSet) (sc t : Scope) :
    (s.insert sc).contains t = (t == sc || s.contains t) := by
  simp only [contains_eq_testBit, insert, Nat.testBit_or]
  by_cases h : t = sc
  · subst h
    simp [Nat.testBit_two_pow_self]
  · have hne : sc.ord ≠ t.ord := fun hc => h (Scope.ord_injective t sc hc.symm)
    simp [Nat.testBit_two_pow_of_ne hne, beq_false_of_ne h]

theorem contains_remove (s : ScopeSet) (sc t : Scope) :
    (s.remove sc).contains t = (!(t == sc) && s.contains t) := by
  simp only [contains_eq_testBit, remove]
  by_cases hb : s.scopes.testBit sc.ord
  · by_cases h : t = sc
    · subst h
      simp [hb, Nat.testBit_two_pow_self]
    · have hne : sc.ord ≠ t.ord := fun hc => h (Scope.ord_injective t sc hc.symm)
      simp [hb, Nat.testBit_two_pow_of_ne hne, beq_false_of_ne h]
  · by_cases h : t = sc
    · subst h
      simp [hb, Bool.eq_false_iff.mpr hb]
    · simp [hb, beq_false_of_ne h]

theorem insert_idem (s : ScopeSet) (sc : Scope) :
    (s.insert sc).insert sc = s.insert sc := by
  ext1
  apply Nat.eq_of_testBit_eq
  intro i
  simp [insert, Bool.or_assoc]

theorem remove_idem (s : ScopeSet) (sc : Scope) :
    (s.remove sc).remove sc = s.remove sc := by
  unfold remove
  by_cases hb : s.scopes.testBit sc.ord
  · simp only [hb, if_true]
    have hx : (s.scopes ^^^ 2 ^ sc.ord).testBit sc.ord = false := by
      simp [Nat.testBit_xor, hb, Nat.testBit_two_pow_self]
    simp [hx]
  · simp [hb]

theorem insert_of_contains (s : ScopeSet) (sc : Scope)
    (h : s.contains sc = true) : s.insert sc = s := by
  rw [contains_eq_testBit] at h
  ext1
  apply Nat.eq_of_testBit_eq
  intro i
  simp only [insert, Nat.testBit_or]
  by_cases hi : sc.ord = i
  · subst hi
    simp [h, Nat.testBit_two_pow_self]
  · simp [Nat.testBit_two_pow_of_ne hi]

theorem remove_of_not_contains (s : ScopeSet) (sc : Scope)
    (h : s.contains sc = false) : s.remove sc = s := by
  rw [contains_eq_testBit] at h
  simp [remove, h]

end ScopeSet

/-- ScopeIter from src/auth/scopes.rs lines 297-300: a cursor into the bit
positions of a ScopeSet.  The Rust iterator borrows the set; the model
stores a copy, which is observationally the same because the set is not
mutated during iteration. -/
structure ScopeIter where
  cursor : Nat
  set : ScopeSet
  deriving DecidableEq

/-- The loop body of ScopeIter::next (src/auth/scopes.rs lines 305-321):
scan cursors from the given position while cursor < Scope::max(), returning
the first scope whose bit is set together with the cursor value after it,
or none when the scan runs off the end. -/
def scanNext (s : ScopeSet) (cursor : Nat) : Option (Scope × Nat) :=
  if _h : cursor < Scope.max then
    match Scope.ofOrd? cursor with
    | some sc => if s.contains sc then some (sc, cursor + 1) else scanNext s (cursor + 1)
    | none => none
  else none
termination_by Scope.max - cursor

/-- ScopeIter::next: returns the next granted Scope and the advanced
iterator; when the scan is exhausted the cursor rests at Scope::max(), as
the Rust while loop leaves it. -/
def ScopeIter.next (it : ScopeIter) : Option Scope × ScopeIter :=
  match scanNext it.set it.cursor with
  | some (sc, c) => (some sc, ⟨c, it.set⟩)
  | none => (none, ⟨Scope.max, it.set⟩)

theorem scanNext_some (s : ScopeSet) (cursor : Nat) (sc : Scope) (c : Nat)
    (h : scanNext s cursor = some (sc, c)) :
    c = sc.ord + 1 ∧ cursor ≤ sc.ord ∧ s.contains sc = true ∧
      ∀ t : Scope, cursor ≤ t.ord → t.ord < sc.ord → s.contains t = false := by
  induction cursor using scanNext.induct s with
  | case1 cur hlt sc0 hord hc =>
    rw [scanNext] at h
    simp only [dif_pos hlt, hord, if_pos hc] at h
    rw [Option.some.injEq, Prod.mk.injEq] at h
    obtain ⟨rfl, rfl⟩ := h
    have hsc : sc0.ord = cur := by
      have := Scope.ofOrd?_ord cur hlt
      rw [hord] at this
      simpa using this
    refine ⟨by omega, by omega, hc, ?_⟩
    intro t ht1 ht2
    omega
  | case2 cur hlt sc0 hord hc ih =>
    rw [scanNext] at h
    simp only [dif_pos hlt, hord, if_neg hc] at h
    have hsc0 : sc0.ord = cur := by
      have := Scope.ofOrd?_ord cur hlt
      rw [hord] at this
      simpa using this
    obtain ⟨h1, h2, h3, h4⟩ := ih h
    refine ⟨h1, by omega, h3, ?_⟩
    intro t ht1 ht2
    by_cases he : t.ord = cur
    · have : t = sc0 := Scope.ord_injective t sc0 (he.trans hsc0.symm)
      subst this
      exact Bool.eq_false_iff.mpr hc
    · exact h4 t (by omega) ht2
  | case3 cur hlt hord =>
    rw [scanNext] at h
    simp only [dif_pos hlt, hord] at h
    exact Option.noConfusion h
  | case4 cur hlt =>
    rw [scanNext] at h
    simp only [dif_neg hlt] at h
    exact Option.noConfusion h

theorem scanNext_none (s : ScopeSet) (cursor : Nat)
    (h : scanNext s cursor = none) :
    ∀ t : Scope, cursor ≤ t.ord → s.contains t = false := by
  induction cursor using scanNext.induct s with
  | case1 cur hlt sc0 hord hc =>
    rw [scanNext] at h
    simp only [dif_pos hlt, hord, if_pos hc] at h
    exact Option.noConfusion h
  | case2 cur hlt sc0 hord hc ih =>
    rw [scanNext] at h
    simp only [dif_pos hlt, hord, if_neg hc] at h
    have hsc0 : sc0.ord = cur := by
      have := Scope.ofOrd?_ord cur hlt
      rw [hord] at this
      simpa using this
    intro t ht
    by_cases he : t.ord = cur
    · have : t = sc0 := Scope.ord_injective t sc0 (he.trans hsc0.symm)
      subst this
      exact Bool.eq_false_iff.mpr hc
    · exact ih h t (by omega)
  | case3 cur hlt hord =>
    have := Scope.ofOrd?_ord cur hlt
    rw [hord] at this
    exact absurd this (by simp)
  | case4 cur hlt =>
    intro t ht
    have := Scope.ord_lt_max t
    omega

/-- Draining a ScopeIter: the finite sequence of scopes produced by calling
next until it returns none.  Terminates because every successful next call
strictly advances the cursor toward Scope::max(). -/
def ScopeIter.drain (it : ScopeIter) : List Scope :=
  match h : scanNext it.set it.cursor with
  | some (sc, c) => sc :: ScopeIter.drain ⟨c, it.set⟩
  | none => []
termination_by Scope.max - it.cursor
decreasing_by
  obtain ⟨h1, h2, h3, h4⟩ := scanNext_some it.set it.cursor sc c h
  have h5 := Scope.ord_lt_max sc
  omega

/-- ScopeSet::scope_iter (src/auth/scopes.rs lines 262-267): a fresh
iterator with cursor 0 over the set. -/
def ScopeSet.scope_iter (s : ScopeSet) : ScopeIter := ⟨0, s⟩

/-- The list of scopes yielded by one invocation of scope_iter. -/
def ScopeSet.scopeList (s : ScopeSet) : List Scope := s.scope_iter.drain

/-- SpecIter::next (src/auth/scopes.rs lines 270-278) maps each scope
produced by the inner ScopeIter through Scope::as_twitch_str. -/
def SpecIter.next (it : ScopeIter) : Option String × ScopeIter :=
  match ScopeIter.next it with
  | (o, it2) => (o.map Scope.as_twitch_str, it2)

/-- Draining the SpecIter wrapper around a ScopeIter. -/
def SpecIter.drain (it : ScopeIter) : List String :=
  match h : scanNext it.set it.cursor with
  | some (sc, c) => sc.as_twitch_str :: SpecIter.drain ⟨c, it.set⟩
  | none => []
termination_by Scope.max - it.cursor
decreasing_by
  obtain ⟨h1, h2, h3, h4⟩ := scanNext_some it.set it.cursor sc c h
  have h5 := Scope.ord_lt_max sc
  omega

/-- ScopeSet::spec_iter (src/auth/scopes.rs lines 254-259): the wire-string
view of a fresh scope iterator, as one invocation yields it. -/
def ScopeSet.specList (s : ScopeSet) : List String := SpecIter.drain ⟨0, s⟩

theorem specDrain_eq_map (it : ScopeIter) :
    SpecIter.drain it = (ScopeIter.drain it).map Scope.as_twitch_str := by
  rw [SpecIter.drain, ScopeIter.drain]
  split
  · rename_i sc c heq
    obtain ⟨h1, h2, h3, h4⟩ := scanNext_some it.set it.cursor sc c heq
    have h5 := Scope.ord_lt_max sc
    have ih := specDrain_eq_map ⟨c, it.set⟩
    simpa using ih
  · rfl
termination_by Scope.max - it.cursor
decreasing_by omega

theorem mem_drain (it : ScopeIter) (t : Scope) :
    t ∈ it.drain ↔ it.cursor ≤ t.ord ∧ it.set.contains t = true := by
  rw [ScopeIter.drain]
  split
  · rename_i sc c heq
    obtain ⟨h1, h2, h3, h4⟩ := scanNext_some it.set it.cursor sc c heq
    have h5 := Scope.ord_lt_max sc
    have ih := mem_drain ⟨c, it.set⟩ t
    simp only at ih
    constructor
    · intro hmem
      rcases List.mem_cons.mp hmem with he | hm
      · subst he
        exact ⟨h2, h3⟩
      · have := ih.mp hm
        exact ⟨by omega, this.2⟩
    · rintro ⟨hc, hcon⟩
      by_cases he : t = sc
      · subst he
        exact List.mem_cons_self _ _
      · have hne : t.ord ≠ sc.ord := fun hc2 => he (Scope.ord_injective t sc hc2)
        have hgt : sc.ord < t.ord := by
          rcases Nat.lt_or_ge t.ord sc.ord with hlt2 | hge
          · exact absurd hcon (by simp [h4 t hc hlt2])
          · omega
        exact List.mem_cons_of_mem _ (ih.mpr ⟨by omega, hcon⟩)
  · rename_i heq
    have hn := scanNext_none it.set it.cursor heq
    constructor
    · intro hmem
      exact absurd hmem (List.not_mem_nil t)
    · rintro ⟨hc, hcon⟩
      exact absurd hcon (by simp [hn t hc])
termination_by Scope.max - it.cursor
decreasing_by omega

theorem drain_pairwise (it : ScopeIter) :
    it.drain.Pairwise (fun a b => a.ord < b.ord) := by
  rw [ScopeIter.drain]
  split
  · rename_i sc c heq
    obtain ⟨h1, h2, h3, h4⟩ := scanNext_some it.set it.cursor sc c heq
    have h5 := Scope.ord_lt_max sc
    refine List.pairwise_cons.mpr ⟨?_, drain_pairwise ⟨c, it.set⟩⟩
    intro t ht
    have := (mem_drain ⟨c, it.set⟩ t).mp ht
    simp only at this
    omega
  · exact List.Pairwise.nil
termination_by Scope.max - it.cursor
decreasing_by all_goals omega

/-- FromIterator of string slices for ScopeSet (src/auth/scopes.rs lines
280-295): start from the empty set and insert every string that
Scope::from_twitch_str recognizes, ignoring the rest. -/
def ScopeSet.fromWireStrings (l : List String) : ScopeSet :=
  l.foldl
    (fun acc maybe_scope =>
      match Scope.from_twitch_str maybe_scope with
      | some scope => acc.insert scope
      | none => acc)
    ScopeSet.new

theorem contains_foldl_insert (l : List String) (acc : ScopeSet) (t : Scope) :
    (l.foldl
      (fun acc maybe_scope =>
        match Scope.from_twitch_str maybe_scope with
        | some scope => acc.insert scope
        | none => acc) acc).contains t =
      (acc.contains t || l.any (fun str => Scope.from_twitch_str str == some t)) := by
  induction l generalizing acc with
  | nil => simp
  | cons hd tl ih =>
    simp only [List.foldl_cons, List.any_cons]
    rw [ih]
    cases hfrom : Scope.from_twitch_str hd with
    | none => simp [hfrom]
    | some sc =>
      rw [ScopeSet.contains_insert]
      by_cases he : t = sc
      · subst he
        simp [hfrom]
      · have hne : sc ≠ t := fun hc => he hc.symm
        simp [hfrom, beq_false_of_ne he, beq_false_of_ne hne]

theorem contains_new (t : Scope) : ScopeSet.new.contains t = false := by
  rw [ScopeSet.contains_eq_testBit]
  simp [ScopeSet.new]

theorem contains_fromWireStrings (l : List String) (t : Scope) :
    (ScopeSet.fromWireStrings l).contains t =
      l.any (fun str => Scope.from_twitch_str str == some t) := by
  rw [ScopeSet.fromWireStrings, contains_foldl_insert, contains_new]
  simp

/-- FailureStatus from src/requests.rs lines 40-52: a status value of type
S plus the message sent with the error.  For the raw wire form S is u16,
modelled as Nat. -/
structure FailureStatus (S : Type) where
  status : S
  message : String
  deriving DecidableEq

/-- CommonResponseCodes from src/requests.rs lines 127-142. -/
inductive CommonResponseCodes where
  | BadRequestCode
  | AuthErrorCode
  | ServerErrorCode
  deriving DecidableEq

/-- CommonResponseCodes::from_status, generated by the response_codes!
macro at src/requests.rs lines 144-170: promote a raw FailureStatus whose
numeric status is 400, 401 or 500 to the matching known variant, carrying
the message over; return the original raw failure unchanged otherwise.
The ok side is the promoted (known) case and the error side is the
unmatched raw case, as in the Rust Result. -/
def CommonResponseCodes.from_status (codes : FailureStatus Nat) :
    Except (FailureStatus Nat) (FailureStatus CommonResponseCodes) :=
  if codes.status = 400 then .ok ⟨.BadRequestCode, codes.message⟩
  else if codes.status = 401 then .ok ⟨.AuthErrorCode, codes.message⟩
  else if codes.status = 500 then .ok ⟨.ServerErrorCode, codes.message⟩
  else .error codes

/-- Transport-level error distinguishing the two reqwest::Error sources in
make_request: req.send() failing, and resp.json() failing to decode the
body as either shape of PossibleResponse. -/
inductive ReqwestErr where
  | sendError (msg : String)
  | decodeError
  deriving DecidableEq

/-- RequestError from src/requests.rs lines 91-117, generic over the
ErrorCodes type C of the endpoint.

The MissingAuth variant is NOT declared in the source enum: the resource
modules nevertheless construct it (src/resource/users.rs line 87,
src/resource/channels.rs line 59, src/resource/clips.rs line 201), so it is
included here to make the written behaviour of those ready() checks
expressible; see claim C2. -/
inductive RequestError (C : Type) where
  | MalformedRequest (msg : String)
  | ScopesError (scopes : List String)
  | KnownErrorStatus (f : FailureStatus C)
  | UnkownErrorStatus (f : FailureStatus Nat)
  | ReqwestError (e : ReqwestErr)
  | UnknownError (msg : String)
  | MissingAuth
  deriving DecidableEq

/-- From FailureStatus of u16 for RequestError, src/requests.rs lines
54-61: classify a raw failure through the ErrorCodes classifier, mapping a
promoted failure to KnownErrorStatus and an unmatched one to
UnkownErrorStatus (sic, source spelling). -/
def RequestError.fromFailure {C : Type}
    (from_status : FailureStatus Nat →
      Except (FailureStatus Nat) (FailureStatus C))
    (failure : FailureStatus Nat) : RequestError C :=
  match from_status failure with
  | .ok known => .KnownErrorStatus known
  | .error unkn => .UnkownErrorStatus unkn

/-- PossibleResponse from src/requests.rs lines 63-77: the untagged union
of a typed success payload and a raw FailureStatus. -/
inductive PossibleResponse (R : Type) where
  | Response (r : R)
  | Failure (f : FailureStatus Nat)
  deriving DecidableEq

/-- PossibleResponse::into_result, src/requests.rs lines 79-89. -/
def PossibleResponse.into_result {R : Type} :
    PossibleResponse R → Except (FailureStatus Nat) R
  | .Response r => .ok r
  | .Failure f => .error f

/-- Deserialization of the untagged PossibleResponse enum
(derive(Deserialize) with serde(untagged), src/requests.rs lines 63-64):
serde tries the variants in declaration order, so a body is first parsed
with the success-payload parser and, only when that fails structurally,
with the FailureStatus parser.  The two component parsers are parameters
because the concrete payload schemas live with each endpoint. -/
def PossibleResponse.deserialize {R B : Type}
    (parseR : B → Option R) (parseF : B → Option (FailureStatus Nat))
    (body : B) : Option (PossibleResponse R) :=
  match parseR body with
  | some r => some (.Response r)
  | none =>
    match parseF body with
    | some f => some (.Failure f)
    | none => none

/-- HTTP method constants (reqwest::Method values used by the crate). -/
inductive Method where
  | GET
  | POST
  deriving DecidableEq

/-- The transport-level request builder (reqwest::RequestBuilder): method
and endpoint fixed at construction, then headers, query parameters and a
JSON body accumulated by the three serialization roles. -/
structure HttpRequest where
  method : Method
  url : String
  headers : List (String × String)
  query : List (String × String)
  body : Option (List (String × String))
  deriving DecidableEq

/-- Client::request(METHOD, ENDPOINT): the empty transport request. -/
def HttpRequest.init (method : Method) (url : String) : HttpRequest :=
  ⟨method, url, [], [], none⟩

/-- RequestBuilder::header: append one header. -/
def HttpRequest.header (req : HttpRequest) (k v : String) : HttpRequest :=
  { req with headers := req.headers ++ [(k, v)] }

/-- RequestBuilder::query: append serialized query pairs. -/
def HttpRequest.addQuery (req : HttpRequest) (pairs : List (String × String)) :
    HttpRequest :=
  { req with query := req.query ++ pairs }

/-- A Request implementation, src/requests.rs lines 227-311: the per-type
constants METHOD and ENDPOINT, the three instance-level serialization roles
(each a write-onto-request operation on the builder), the readiness check,
and the response machinery (the component parsers behind the untagged
PossibleResponse together with the ErrorCodes classifier). -/
structure RequestType (Req R C B : Type) where
  METHOD : Method
  ENDPOINT : String
  writeHeaders : Req → HttpRequest → HttpRequest
  writeParameters : Req → HttpRequest → HttpRequest
  writeBody : Req → HttpRequest → HttpRequest
  ready : Req → Except (RequestError C) Unit
  parseR : B → Option R
  parseF : B → Option (FailureStatus Nat)
  from_status : FailureStatus Nat →
    Except (FailureStatus Nat) (FailureStatus C)

/-- The transport request that make_request builds for a given request
value (src/requests.rs lines 293-299): the empty builder for the fixed
method and endpoint, with headers, then parameters, then body applied in
that order. -/
def RequestType.built {Req R C B : Type} (rt : RequestType Req R C B)
    (req : Req) : HttpRequest :=
  rt.writeBody req (rt.writeParameters req
    (rt.writeHeaders req (HttpRequest.init rt.METHOD rt.ENDPOINT)))

/-- Request::make_request, src/requests.rs lines 286-310.  The transport
argument models req.send().await followed by reading the body: it maps the
built request to either a raw response body or a send error.  The second
component of the result is the list of transport dispatches performed, in
order, so that the no-I/O-before-readiness property is expressible. -/
def RequestType.make_request {Req R C B : Type} (rt : RequestType Req R C B)
    (req : Req) (transport : HttpRequest → Except String B) :
    Except (RequestError C) R × List HttpRequest :=
  match rt.ready req with
  | .error e => (.error e, [])
  | .ok _ =>
    let built := rt.built req
    match transport built with
    | .error msg => (.error (.ReqwestError (.sendError msg)), [built])
    | .ok body =>
      match PossibleResponse.deserialize rt.parseR rt.parseF body with
      | none => (.error (.ReqwestError .decodeError), [built])
      | some presp =>
        match presp.into_result with
        | .ok r => (.ok r, [built])
        | .error f => (.error (RequestError.fromFailure rt.from_status f), [built])

/-- ClientAuthToken from src/auth/mod.rs lines 274-280.  The value-wrapper
newtypes ClientId and the token string are modelled as String. -/
structure ClientAuthToken where
  scopes : ScopeSet
  token : String
  client_id : String
  deriving DecidableEq

/-- Headers for ClientAuthToken, src/auth/mod.rs lines 306-311: write the
Authorization bearer header and the Client-Id header. -/
def ClientAuthToken.write_headers (t : ClientAuthToken) (req : HttpRequest) :
    HttpRequest :=
  (req.header "Authorization" ("Bearer " ++ t.token)).header "Client-Id" t.client_id

/-- A single user datum of the Get Users response, src/resource/users.rs
lines 212-234; the value-wrapper newtypes are modelled as String and the
view count as Nat. -/
structure UserDescription where
  broadcaster_type : String
  description : String
  display_name : String
  email : Option String
  id : String
  login : String
  offline_image_url : String
  profile_image_url : String
  user_type : String
  view_count : Nat
  created_at : String
  deriving DecidableEq

/-- GetUsersResponse from src/resource/users.rs lines 200-206. -/
structure GetUsersResponse where
  users : List UserDescription
  deriving DecidableEq

/-- GetUsersRequest from src/resource/users.rs lines 40-48, generic over
the auth token type A. -/
structure GetUsersRequest (A : Type) where
  auth : Option A
  id : List String
  login : List String
  deriving DecidableEq

/-- GetUsersRequest::builder, src/resource/users.rs lines 65-71. -/
def GetUsersRequest.builder {A : Type} : GetUsersRequest A :=
  ⟨none, [], []⟩

/-- GetUsersRequest::ready, src/resource/users.rs lines 85-99, written as
in the source: a missing auth token yields RequestError::MissingAuth (a
variant the RequestError enum does not declare; see claim C2), an empty
and an oversized search set yield MalformedRequest. -/
def GetUsersRequest.ready {A : Type} (r : GetUsersRequest A) :
    Except (RequestError CommonResponseCodes) Unit :=
  if r.auth.isNone then .error .MissingAuth
  else if r.id.length == 0 && r.login.length == 0 then
    .error (.MalformedRequest "At least one id or login must be provided")
  else if r.id.length + r.login.length > 100 then
    .error (.MalformedRequest
      "You cannot make a get users request with more than 100 cumulative search terms")
  else .ok ()

/-- GetUsersRequest::headers, src/resource/users.rs lines 73-75: the
source unwraps self.auth; the none case is the panic and is shown
unreachable under ready in claim C10. -/
def GetUsersRequest.headersOpt {A : Type} (r : GetUsersRequest A) : Option A :=
  r.auth

/-- Serialize for GetUsersRequest, src/resource/users.rs lines 177-195: an
entry per id under key id, then an entry per login under key login. -/
def GetUsersRequest.serializeParams {A : Type} (r : GetUsersRequest A) :
    List (String × String) :=
  r.id.map (fun e => ("id", e)) ++ r.login.map (fun e => ("login", e))

/-- The Request impl for GetUsersRequest at auth type ClientAuthToken,
src/resource/users.rs lines 50-100: GET on the users endpoint, headers
written by the auth token (unwrap modelled by its safe branch), parameters
by the Serialize impl, no body.  The JSON parsers behind PossibleResponse
are parameters, as the crate delegates them to serde. -/
def rtGetUsers (B : Type) (parseR : B → Option GetUsersResponse)
    (parseF : B → Option (FailureStatus Nat)) :
    RequestType (GetUsersRequest ClientAuthToken) GetUsersResponse
      CommonResponseCodes B where
  METHOD := .GET
  ENDPOINT := "https://api.twitch.tv/helix/users"
  writeHeaders := fun r req =>
    match r.headersOpt with
    | some a => a.write_headers req
    | none => req
  writeParameters := fun r req => req.addQuery r.serializeParams
  writeBody := fun _ req => req
  ready := GetUsersRequest.ready
  parseR := parseR
  parseF := parseF
  from_status := CommonResponseCodes.from_status

/-- Pagination cursor wrapper used by the clips endpoint. -/
structure Pagination where
  cursor : Option String
  deriving DecidableEq

/-- PaginationDirection from src/resource/clips.rs lines 67-71. -/
inductive PaginationDirection where
  | NoDirection
  | Before (p : Pagination)
  | After (p : Pagination)
  deriving DecidableEq

/-- QueryType from src/resource/clips.rs lines 83-88. -/
inductive QueryType where
  | Unset
  | BroadCasterId (id : String)
  | GameId (id : String)
  | ClipId (ids : List String)
  deriving DecidableEq

/-- GetClipsRequest from src/resource/clips.rs lines 100-109. -/
structure GetClipsRequest (A : Type) where
  auth : Option A
  query_type : QueryType
  pagination : PaginationDirection
  count : Option Nat
  period : Option (String × Option String)
  deriving DecidableEq

/-- GetClipsRequest::builder, src/resource/clips.rs lines 179-187 (the
defaults of QueryType and PaginationDirection are Unset and none). -/
def GetClipsRequest.builder {A : Type} : GetClipsRequest A :=
  ⟨none, .Unset, .NoDirection, none, none⟩

/-- GetClipsRequest::ready, src/resource/clips.rs lines 199-221, written
as in the source (including the undeclared MissingAuth variant for a
missing auth token; see claim C2). -/
def GetClipsRequest.ready {A : Type} (r : GetClipsRequest A) :
    Except (RequestError CommonResponseCodes) Unit :=
  if r.auth.isNone then .error .MissingAuth
  else
    match r.query_type with
    | .Unset => .error (.MalformedRequest
        "Must provide at least one of broadcaster_id, game_id, clip_id")
    | .ClipId clips =>
      if clips.length == 0 then
        .error (.MalformedRequest
          "Must provide at least one of broadcaster_id, game_id, clip_id")
      else if clips.length > 100 then
        .error (.MalformedRequest "Cannot send more than 100 clip_ids at a time")
      else .ok ()
    | _ => .ok ()

/-- The optional query entries of Serialize for GetClipsRequest,
src/resource/clips.rs lines 133-157: pagination cursor, count under key
first, then the period entries; started_ad is the key spelling used by
the source. -/
def GetClipsRequest.serializeOptional {A : Type} (r : GetClipsRequest A) :
    List (String × String) :=
  (match r.pagination with
    | .NoDirection => []
    | .Before p =>
      match p.cursor with
      | some c => [("before", c)]
      | none => []
    | .After p =>
      match p.cursor with
      | some c => [("after", c)]
      | none => []) ++
  (match r.count with
    | some c => [("first", toString c)]
    | none => []) ++
  (match r.period with
    | some (start, maybe_end) =>
      [("started_ad", start)] ++
        (match maybe_end with
          | some e => [("ended_at", e)]
          | none => [])
    | none => [])

/-- Serialize for GetClipsRequest, src/resource/clips.rs lines 111-161:
the required query entry per query type (the Unset arm is the
unreachable! panic, modelled as none and shown unreachable under ready in
claim C10), then the optional entries. -/
def GetClipsRequest.serializeParams {A : Type} (r : GetClipsRequest A) :
    Option (List (String × String)) :=
  match r.query_type with
  | .Unset => none
  | .GameId id => some ([("game_id", id)] ++ r.serializeOptional)
  | .BroadCasterId id => some ([("broadcaster_id", id)] ++ r.serializeOptional)
  | .ClipId ids => some (ids.map (fun id => ("id", id)) ++ r.serializeOptional)

/-- GetClipsRequest::headers, src/resource/clips.rs lines 189-191: the
source unwraps self.auth (see claim C10). -/
def GetClipsRequest.headersOpt {A : Type} (r : GetClipsRequest A) : Option A :=
  r.auth

/-- GetChannelInformationRequest from src/resource/channels.rs lines
16-24, generic over the auth token type A; the BroadcasterId newtype is
modelled as String. -/
structure GetChannelInformationRequest (A : Type) where
  auth : Option A
  broadcaster_id : Option String
  deriving DecidableEq

/-- GetChannelInformationRequest::builder, src/resource/channels.rs lines
40-45. -/
def GetChannelInformationRequest.builder {A : Type} :
    GetChannelInformationRequest A :=
  ⟨none, none⟩

/-- GetChannelInformationRequest::ready, src/resource/channels.rs lines
57-67, written as in the source (including the undeclared MissingAuth
variant for a missing auth token; see claim C2). -/
def GetChannelInformationRequest.ready {A : Type}
    (r : GetChannelInformationRequest A) :
    Except (RequestError CommonResponseCodes) Unit :=
  if r.auth.isNone then .error .MissingAuth
  else if r.broadcaster_id.isNone then
    .error (.MalformedRequest "You must provide a broadcaster_id")
  else .ok ()

/-- GetChannelInformationRequest::headers, src/resource/channels.rs lines
47-49: the source unwraps self.auth; the none case is the panic and is
shown unreachable under ready in claim C10. -/
def GetChannelInformationRequest.headersOpt {A : Type}
    (r : GetChannelInformationRequest A) : Option A :=
  r.auth

/-- ClientAuthRequestParams from src/auth/mod.rs lines 137-141. -/
structure ClientAuthRequestParams where
  client_id : Option String
  client_secret : Option String
  scopes : List String
  deriving DecidableEq

/-- Serialize for ClientAuthRequestParams, src/auth/mod.rs lines 156-170:
unwraps client_id and client_secret (the none cases are the panics, shown
unreachable under ready in claim C10) and writes the three-entry map; the
scopes vector is not yet serialized in the source. -/
def ClientAuthRequestParams.serialize (p : ClientAuthRequestParams) :
    Option (List (String × String)) :=
  match p.client_id, p.client_secret with
  | some i, some s =>
    some [("client_id", i), ("client_secret", s),
          ("grant_type", "client_credentials")]
  | _, _ => none

/-- ClientAuthRequest from src/auth/mod.rs lines 152-154. -/
structure ClientAuthRequest where
  params : ClientAuthRequestParams
  deriving DecidableEq

/-- ClientAuthRequest::builder, src/auth/mod.rs lines 186-194. -/
def ClientAuthRequest.builder : ClientAuthRequest :=
  ⟨⟨none, none, []⟩⟩

/-- ClientAuthRequest::ready, src/auth/mod.rs lines 206-218. -/
def ClientAuthRequest.ready (r : ClientAuthRequest) :
    Except (RequestError CommonResponseCodes) Unit :=
  if r.params.client_id.isNone then
    .error (.MalformedRequest "field client_id must be set")
  else if r.params.client_secret.isNone then
    .error (.MalformedRequest "field client_secret must be set")
  else .ok ()

/-- Claim C1: the ErrorCodes classifier of CommonResponseCodes is a pure,
total function: for every numeric status and message, from_status returns
the promoted known variant carrying the same message exactly when the
status is 400, 401 or 500, and returns the original raw failure unchanged
otherwise; the conversion used by execute maps the promoted case to
KnownErrorStatus and the unmatched case to UnkownErrorStatus.  Totality in
Lean rules out any panic. -/
theorem C1_error_classification (st : Nat) (msg : String) :
    ((st = 400 ∨ st = 401 ∨ st = 500) →
      ∃ c : CommonResponseCodes,
        CommonResponseCodes.from_status ⟨st, msg⟩ = .ok ⟨c, msg⟩ ∧
        RequestError.fromFailure CommonResponseCodes.from_status ⟨st, msg⟩ =
          .KnownErrorStatus ⟨c, msg⟩) ∧
    (¬(st = 400 ∨ st = 401 ∨ st = 500) →
      CommonResponseCodes.from_status ⟨st, msg⟩ = .error ⟨st, msg⟩ ∧
      RequestError.fromFailure CommonResponseCodes.from_status ⟨st, msg⟩ =
        .UnkownErrorStatus ⟨st, msg⟩) := by
  constructor
  · rintro (rfl | rfl | rfl)
    · exact ⟨.BadRequestCode, rfl, rfl⟩
    · exact ⟨.AuthErrorCode, rfl, rfl⟩
    · exact ⟨.ServerErrorCode, rfl, rfl⟩
  · intro h
    push_neg at h
    obtain ⟨h4, h1, h5⟩ := h
    have hfs : CommonResponseCodes.from_status ⟨st, msg⟩ = .error ⟨st, msg⟩ := by
      simp [CommonResponseCodes.from_status, h4, h1, h5]
    refine ⟨hfs, ?_⟩
    rw [RequestError.fromFailure, hfs]

/-- Witness for C1 at the concrete statuses 400 (known, message carried
over) and 599 (unknown, raw failure unchanged). -/
theorem C1_error_classification_witness :
    (∃ c : CommonResponseCodes,
      CommonResponseCodes.from_status ⟨400, "bad"⟩ = .ok ⟨c, "bad"⟩ ∧
      RequestError.fromFailure CommonResponseCodes.from_status ⟨400, "bad"⟩ =
        .KnownErrorStatus ⟨c, "bad"⟩) ∧
    (CommonResponseCodes.from_status ⟨599, "x"⟩ = .error ⟨599, "x"⟩ ∧
      RequestError.fromFailure CommonResponseCodes.from_status ⟨599, "x"⟩ =
        .UnkownErrorStatus ⟨599, "x"⟩) :=
  ⟨(C1_error_classification 400 "bad").1 (Or.inl rfl),
   (C1_error_classification 599 "x").2 (by decide)⟩

/-- Claim C4: the Scope value to wire-string mapping is a total bijection
over the 26 known scopes: from_twitch_str inverts as_twitch_str,
as_twitch_str is injective, and for every ScopeSet, rebuilding a set from
the wire strings it iterates yields a set whose contains agrees with the
original on every scope. -/
theorem C4_scope_string_bijection :
    (∀ sc : Scope, Scope.from_twitch_str (Scope.as_twitch_str sc) = some sc) ∧
    (∀ s t : Scope, Scope.as_twitch_str s = Scope.as_twitch_str t → s = t) ∧
    (∀ S : ScopeSet, ∀ sc : Scope,
      (ScopeSet.fromWireStrings S.specList).contains sc = S.contains sc) := by
  refine ⟨Scope.from_as_twitch_str, Scope.as_twitch_str_injective, ?_⟩
  intro S sc
  rw [contains_fromWireStrings, ScopeSet.specList, specDrain_eq_map]
  cases hC : S.contains sc with
  | true =>
    rw [List.any_eq_true]
    refine ⟨sc.as_twitch_str, ?_, ?_⟩
    · exact List.mem_map_of_mem _ ((mem_drain ⟨0, S⟩ sc).mpr ⟨Nat.zero_le _, hC⟩)
    · simp [Scope.from_as_twitch_str]
  | false =>
    rw [List.any_eq_false]
    intro x hx
    obtain ⟨t, ht, rfl⟩ := List.mem_map.mp hx
    simp only [Scope.from_as_twitch_str, beq_iff_eq, Option.some.injEq]
    intro he
    subst he
    have := (mem_drain ⟨0, S⟩ t).mp ht
    simp only at this
    exact absurd this.2 (by simp [hC])

/-- Witness for C4 at concrete inputs: the round trip at UserEdit,
injectivity applied at equal strings, and the subset round trip on the
singleton set holding UserEdit. -/
theorem C4_scope_string_bijection_witness :
    Scope.from_twitch_str (Scope.as_twitch_str .UserEdit) = some .UserEdit ∧
    Scope.UserEdit = Scope.UserEdit ∧
    (ScopeSet.fromWireStrings (ScopeSet.new.insert .UserEdit).specList).contains
        .UserEdit =
      (ScopeSet.new.insert .UserEdit).contains .UserEdit :=
  ⟨C4_scope_string_bijection.1 .UserEdit,
   C4_scope_string_bijection.2.1 .UserEdit .UserEdit rfl,
   C4_scope_string_bijection.2.2 (ScopeSet.new.insert .UserEdit) .UserEdit⟩

/-- Claim C5: one invocation of the scope iteration over a ScopeSet yields
exactly the scopes whose bits are set, in strictly ascending ordinal
order, and it is a total function of the set; the spec iteration is the
same sequence mapped through as_twitch_str; each invocation of scope_iter
builds a fresh cursor at position 0, so repeated invocations on an
unchanged set are literally the same computation and yield the same
list. -/
theorem C5_scope_iteration (s : ScopeSet) :
    s.scopeList.Pairwise (fun a b => a.ord < b.ord) ∧
    (∀ sc : Scope, sc ∈ s.scopeList ↔ s.contains sc = true) ∧
    s.specList = s.scopeList.map Scope.as_twitch_str ∧
    s.scope_iter = ⟨0, s⟩ := by
  refine ⟨drain_pairwise _, ?_, specDrain_eq_map _, rfl⟩
  intro sc
  rw [ScopeSet.scopeList, mem_drain]
  simp [ScopeSet.scope_iter]

/-- Claim C6: insert and remove on ScopeSet are idempotent, inserting an
already present scope and removing an absent scope are no-ops, and
inserting then removing a scope leaves that scope absent while the
membership of every other scope is unchanged. -/
theorem C6_insert_remove (s : ScopeSet) (sc : Scope) :
    (s.insert sc).insert sc = s.insert sc ∧
    (s.remove sc).remove sc = s.remove sc ∧
    (s.contains sc = true → s.insert sc = s) ∧
    (s.contains sc = false → s.remove sc = s) ∧
    ((s.insert sc).remove sc).contains sc = false ∧
    (∀ t : Scope, t ≠ sc → ((s.insert sc).remove sc).contains t = s.contains t) := by
  refine ⟨ScopeSet.insert_idem s sc, ScopeSet.remove_idem s sc,
    ScopeSet.insert_of_contains s sc, ScopeSet.remove_of_not_contains s sc, ?_, ?_⟩
  · rw [ScopeSet.contains_remove]
    simp
  · intro t ht
    rw [ScopeSet.contains_remove, ScopeSet.contains_insert]
    simp [beq_false_of_ne ht]

/-- Witness for C6 at concrete inputs: the empty set with UserEdit
inserted then removed, membership of ChatRead preserved, and the no-op
clause at an absent scope. -/
theorem C6_insert_remove_witness :
    ((ScopeSet.new.insert .UserEdit).remove .UserEdit).contains .ChatRead =
      ScopeSet.new.contains .ChatRead ∧
    ScopeSet.new.remove .UserEdit = ScopeSet.new :=
  ⟨(C6_insert_remove ScopeSet.new .UserEdit).2.2.2.2.2 .ChatRead (by decide),
   (C6_insert_remove ScopeSet.new .UserEdit).2.2.2.1 (by decide)⟩

/-- Claim C7: building a ScopeSet from a list of wire strings inserts
exactly the recognized strings, so a scope is contained (and iterated) iff
some input string maps to it under from_twitch_str; an unrecognized string
anywhere in the input changes nothing and produces no error. -/
theorem C7_from_wire_strings (l : List String) (sc : Scope) :
    ((ScopeSet.fromWireStrings l).contains sc = true ↔
      ∃ str ∈ l, Scope.from_twitch_str str = some sc) ∧
    (sc ∈ (ScopeSet.fromWireStrings l).scopeList ↔
      ∃ str ∈ l, Scope.from_twitch_str str = some sc) ∧
    (∀ l2 : List String, ∀ bad : String, Scope.from_twitch_str bad = none →
      ScopeSet.fromWireStrings (l ++ bad :: l2) =
        ScopeSet.fromWireStrings (l ++ l2)) := by
  have h1 : (ScopeSet.fromWireStrings l).contains sc = true ↔
      ∃ str ∈ l, Scope.from_twitch_str str = some sc := by
    rw [contains_fromWireStrings, List.any_eq_true]
    simp
  refine ⟨h1, ?_, ?_⟩
  · rw [ScopeSet.scopeList, mem_drain]
    simp only [ScopeSet.scope_iter, Nat.zero_le, true_and]
    exact h1
  · intro l2 bad hbad
    rw [ScopeSet.fromWireStrings, ScopeSet.fromWireStrings,
      List.foldl_append, List.foldl_append, List.foldl_cons, hbad]

/-- Witness for C7 at concrete inputs: one recognized and one unrecognized
string. -/
theorem C7_from_wire_strings_witness :
    ((ScopeSet.fromWireStrings ["user:edit"]).contains .UserEdit = true ↔
      ∃ str ∈ ["user:edit"], Scope.from_twitch_str str = some .UserEdit) ∧
    ScopeSet.fromWireStrings (["user:edit"] ++ "bogus" :: []) =
      ScopeSet.fromWireStrings (["user:edit"] ++ []) :=
  ⟨(C7_from_wire_strings ["user:edit"] .UserEdit).1,
   (C7_from_wire_strings ["user:edit"] .UserEdit).2.2 [] "bogus" (by decide)⟩

/-- Claim C9: the word backing ScopeSet is wide enough for all 26 scopes,
every scope ordinal indexes inside both the enumeration bound and the
word, the bounds-checked read that contains unwraps always succeeds (the
expect never fires), bit i is set exactly when the scope with ordinal i is
granted, and insert and remove touch exactly that in-bounds bit, so no
ScopeSet operation can panic. -/
theorem C9_bitset_width_safety :
    Scope.max ≤ wordBits ∧
    (∀ sc : Scope, sc.ord < Scope.max) ∧
    (∀ sc : Scope, sc.ord < wordBits) ∧
    (∀ (s : ScopeSet) (sc : Scope), s.get sc.ord = some (s.contains sc)) ∧
    (∀ (s : ScopeSet) (sc : Scope), s.contains sc = s.scopes.testBit sc.ord) ∧
    (∀ (s : ScopeSet) (sc : Scope), (s.insert sc).scopes.testBit sc.ord = true) ∧
    (∀ (s : ScopeSet) (sc : Scope), (s.remove sc).scopes.testBit sc.ord = false) := by
  refine ⟨by decide, Scope.ord_lt_max, ?_, ?_, ScopeSet.contains_eq_testBit, ?_, ?_⟩
  · intro sc
    have := Scope.ord_lt_max sc
    simp only [Scope.max] at this
    simp only [wordBits]
    omega
  · intro s sc
    rw [ScopeSet.get_ord_eq_some, ScopeSet.contains_eq_testBit]
  · intro s sc
    simp [ScopeSet.insert, Nat.testBit_or, Nat.testBit_two_pow_self]
  · intro s sc
    have h := ScopeSet.contains_remove s sc sc
    rw [ScopeSet.contains_eq_testBit] at h
    simpa using h

/-- Claim C2 (code bug): make_request re-evaluates ready on every call
and, when ready reports not-ready, returns that error with zero transport
dispatches; but the claim additionally says every not-ready reason yields
the MalformedRequest variant, and for a missing auth token the source
ready implementations return RequestError::MissingAuth — a variant the
RequestError enum of src/requests.rs does not declare — which is a
distinct value from every MalformedRequest.  Evaluated at the fresh
GetUsersRequest builder (auth unset), make_request returns MissingAuth,
not MalformedRequest, with zero transport calls. -/
theorem C2_not_ready_no_transport :
    (∀ (Req R C B : Type) (rt : RequestType Req R C B) (req : Req)
       (transport : HttpRequest → Except String B) (e : RequestError C),
      rt.ready req = .error e →
      rt.make_request req transport = (.error e, [])) ∧
    (@GetUsersRequest.ready ClientAuthToken GetUsersRequest.builder =
      .error .MissingAuth) ∧
    (∀ (B : Type) (parseR : B → Option GetUsersResponse)
       (parseF : B → Option (FailureStatus Nat))
       (transport : HttpRequest → Except String B),
      (rtGetUsers B parseR parseF).make_request GetUsersRequest.builder transport =
        (.error .MissingAuth, [])) ∧
    (∀ msg : String,
      (RequestError.MissingAuth : RequestError CommonResponseCodes) ≠
        .MalformedRequest msg) := by
  have h1 : ∀ (Req R C B : Type) (rt : RequestType Req R C B) (req : Req)
      (transport : HttpRequest → Except String B) (e : RequestError C),
      rt.ready req = .error e →
      rt.make_request req transport = (.error e, []) := by
    intro Req R C B rt req transport e h
    rw [RequestType.make_request, h]
  refine ⟨h1, rfl, ?_, ?_⟩
  · intro B parseR parseF transport
    exact h1 _ _ _ _ (rtGetUsers B parseR parseF) GetUsersRequest.builder
      transport .MissingAuth rfl
  · intro msg h
    exact RequestError.noConfusion h

/-- Witness for C2 at a concrete instantiation: the users request type
with trivial parsers, the fresh builder, and a transport that would fail
if it were ever consulted. -/
theorem C2_not_ready_no_transport_witness :
    (rtGetUsers Nat (fun _ => none) (fun _ => none)).make_request
        GetUsersRequest.builder (fun _ => .error "unreachable") =
      (.error .MissingAuth, []) :=
  C2_not_ready_no_transport.1 _ _ _ _
    (rtGetUsers Nat (fun _ => none) (fun _ => none))
    GetUsersRequest.builder (fun _ => .error "unreachable") .MissingAuth rfl

/-- Claim C3: the untagged PossibleResponse deserialization attempts the
typed success shape first and attempts the FailureStatus shape exactly
when the success attempt fails; and whenever the success attempt parses
the transported body, make_request returns that typed value unchanged. -/
theorem C3_untagged_order_success_passthrough :
    (∀ (R B : Type) (parseR : B → Option R)
       (parseF : B → Option (FailureStatus Nat)) (b : B) (r : R),
      parseR b = some r →
      PossibleResponse.deserialize parseR parseF b = some (.Response r)) ∧
    (∀ (R B : Type) (parseR : B → Option R)
       (parseF : B → Option (FailureStatus Nat)) (b : B),
      parseR b = none →
      PossibleResponse.deserialize parseR parseF b =
        (parseF b).map PossibleResponse.Failure) ∧
    (∀ (Req R C B : Type) (rt : RequestType Req R C B) (req : Req)
       (transport : HttpRequest → Except String B) (b : B) (r : R),
      rt.ready req = .ok () →
      transport (rt.built req) = .ok b →
      rt.parseR b = some r →
      rt.make_request req transport = (.ok r, [rt.built req])) := by
  refine ⟨?_, ?_, ?_⟩
  · intro R B parseR parseF b r h
    rw [PossibleResponse.deserialize, h]
  · intro R B parseR parseF b h
    rw [PossibleResponse.deserialize, h]
    cases parseF b <;> rfl
  · intro Req R C B rt req transport b r hready htr hparse
    simp only [RequestType.make_request, hready, htr,
      PossibleResponse.deserialize, hparse, PossibleResponse.into_result]

/-- Witness for C3 at a concrete instantiation: a transport returning a
fixed body that the success parser accepts. -/
theorem C3_untagged_order_success_passthrough_witness :
    (rtGetUsers Nat (fun _ => some ⟨[]⟩) (fun _ => none)).make_request
        (GetUsersRequest.mk (some ⟨ScopeSet.new, "t", "c"⟩) [] ["TheHoodlum12"])
        (fun _ => .ok 0) =
      (.ok ⟨[]⟩,
       [(rtGetUsers Nat (fun _ => some ⟨[]⟩) (fun _ => none)).built
          (GetUsersRequest.mk (some ⟨ScopeSet.new, "t", "c"⟩) [] ["TheHoodlum12"])]) :=
  C3_untagged_order_success_passthrough.2.2 _ _ _ _
    (rtGetUsers Nat (fun _ => some ⟨[]⟩) (fun _ => none))
    (GetUsersRequest.mk (some ⟨ScopeSet.new, "t", "c"⟩) [] ["TheHoodlum12"])
    (fun _ => .ok 0) 0 ⟨[]⟩ rfl rfl rfl

/-- Claim C8: for a ready request, make_request builds the transport
request from the fixed METHOD and ENDPOINT constants with the three
serialization roles applied in the order headers, parameters, body, and
dispatches exactly that request exactly once, whatever the transport then
does. -/
theorem C8_fixed_build_order (Req R C B : Type) (rt : RequestType Req R C B)
    (req : Req) (transport : HttpRequest → Except String B)
    (h : rt.ready req = .ok ()) :
    rt.built req =
      rt.writeBody req (rt.writeParameters req (rt.writeHeaders req
        (HttpRequest.init rt.METHOD rt.ENDPOINT))) ∧
    (rt.make_request req transport).2 = [rt.built req] := by
  refine ⟨rfl, ?_⟩
  simp only [RequestType.make_request, h]
  cases htr : transport (rt.built req) with
  | error msg => simp [htr]
  | ok body =>
    cases hd : PossibleResponse.deserialize rt.parseR rt.parseF body with
    | none => simp [htr, hd]
    | some presp =>
      cases hir : presp.into_result with
      | ok rr => simp [htr, hd, hir]
      | error f => simp [htr, hd, hir]

/-- Witness for C8 at a concrete instantiation: a ready users request. -/
theorem C8_fixed_build_order_witness :
    ((rtGetUsers Nat (fun _ => none) (fun _ => none)).make_request
        (GetUsersRequest.mk (some ⟨ScopeSet.new, "t", "c"⟩) [] ["TheHoodlum12"])
        (fun _ => .ok 0)).2 =
      [(rtGetUsers Nat (fun _ => none) (fun _ => none)).built
        (GetUsersRequest.mk (some ⟨ScopeSet.new, "t", "c"⟩) [] ["TheHoodlum12"])] :=
  (C8_fixed_build_order _ _ _ _
    (rtGetUsers Nat (fun _ => none) (fun _ => none))
    (GetUsersRequest.mk (some ⟨ScopeSet.new, "t", "c"⟩) [] ["TheHoodlum12"])
    (fun _ => .ok 0) rfl).2

/-- Claim C10: under the precondition that ready returned ok, the panic
branches in the accessors and serializers that make_request then invokes
are unreachable: the auth unwrap in headers() of the users, clips and
channels requests, the unreachable arm for an unset query type in the
clips Serialize impl, and the client auth params client_id and
client_secret unwraps. -/
theorem C10_ready_guards_panics :
    (∀ (A : Type) (r : GetUsersRequest A), r.ready = .ok () →
      r.headersOpt.isSome = true) ∧
    (∀ (A : Type) (r : GetChannelInformationRequest A), r.ready = .ok () →
      r.headersOpt.isSome = true) ∧
    (∀ (A : Type) (r : GetClipsRequest A), r.ready = .ok () →
      r.headersOpt.isSome = true ∧ r.serializeParams.isSome = true) ∧
    (∀ r : ClientAuthRequest, r.ready = .ok () →
      r.params.serialize.isSome = true) := by
  refine ⟨?_, ?_, ?_, ?_⟩
  · intro A r h
    cases ha : r.auth with
    | none =>
      rw [GetUsersRequest.ready, ha] at h
      simp at h
    | some a => simp [GetUsersRequest.headersOpt, ha]
  · intro A r h
    cases ha : r.auth with
    | none =>
      rw [GetChannelInformationRequest.ready, ha] at h
      simp at h
    | some a => simp [GetChannelInformationRequest.headersOpt, ha]
  · intro A r h
    cases ha : r.auth with
    | none =>
      rw [GetClipsRequest.ready, ha] at h
      simp at h
    | some a =>
      refine ⟨by simp [GetClipsRequest.headersOpt, ha], ?_⟩
      rw [GetClipsRequest.ready, ha] at h
      simp only [Option.isNone_some, Bool.false_eq_true, if_false] at h
      cases hq : r.query_type with
      | Unset =>
        rw [hq] at h
        simp at h
      | BroadCasterId i => simp [GetClipsRequest.serializeParams, hq]
      | GameId i => simp [GetClipsRequest.serializeParams, hq]
      | ClipId ids => simp [GetClipsRequest.serializeParams, hq]
  · intro r h
    rw [ClientAuthRequest.ready] at h
    cases hi : r.params.client_id with
    | none =>
      rw [hi] at h
      simp at h
    | some i =>
      cases hs : r.params.client_secret with
      | none =>
        rw [hi, hs] at h
        simp at h
      | some s => simp [ClientAuthRequestParams.serialize, hi, hs]

/-- Witness for C10 at concrete ready requests of each of the four
kinds. -/
theorem C10_ready_guards_panics_witness :
    (GetUsersRequest.mk (some (ClientAuthToken.mk ScopeSet.new "t" "c")) []
        ["TheHoodlum12"]).headersOpt.isSome = true ∧
    (GetChannelInformationRequest.mk
        (some (ClientAuthToken.mk ScopeSet.new "t" "c"))
        (some "44445592")).headersOpt.isSome = true ∧
    ((GetClipsRequest.mk (some (ClientAuthToken.mk ScopeSet.new "t" "c"))
        (.BroadCasterId "44445592") .NoDirection none none).headersOpt.isSome = true ∧
      (GetClipsRequest.mk (some (ClientAuthToken.mk ScopeSet.new "t" "c"))
        (.BroadCasterId "44445592") .NoDirection none none).serializeParams.isSome = true) ∧
    (ClientAuthRequest.mk ⟨some "id", some "secret", []⟩).params.serialize.isSome = true :=
  ⟨C10_ready_guards_panics.1 ClientAuthToken _ rfl,
   C10_ready_guards_panics.2.1 ClientAuthToken _ rfl,
   C10_ready_guards_panics.2.2.1 ClientAuthToken _ rfl,
   C10_ready_guards_panics.2.2.2 _ rfl⟩

end TwitchApi
